import Mathlib

/-!
Verification of the tennis-prediction core (`validate_input` and `predict`
from `bot.py`) against its specification.

Numbers are modelled as rationals (`ℚ`); Python's `round(x, 2)` is modelled
as exact round-half-to-even at two decimal places (Python's rounding mode);
Python's `str.lower` is modelled by lowering each character; runtime errors
(`ZeroDivisionError`, `TypeError`) are modelled with `Option` / `Except`.
Each local variable of `predict` becomes a top-level definition of the same
name, so that `predict` reads line for line like bot.py lines 54-87.
-/

/-- Python `round` to an integer: round half to even (banker's rounding). -/
def pyRoundInt (q : ℚ) : ℤ :=
  if Int.fract q < 1/2 then ⌊q⌋
  else if 1/2 < Int.fract q then ⌊q⌋ + 1
  else if ⌊q⌋ % 2 = 0 then ⌊q⌋ else ⌊q⌋ + 1

/-- Python `round(q, 2)`: round half to even at two decimal places. -/
def pyRound2 (q : ℚ) : ℚ := (pyRoundInt (q * 100) : ℚ) / 100

/-- Python `s.lower()`, modelled characterwise. -/
def pyLower (s : String) : String := String.mk (s.data.map Char.toLower)

/-- Source line 55: `total_per_set = [a+b for a,b in zip(player_a_sets, player_b_sets)]`
-/
def total_per_set (xs ys : List ℚ) : List ℚ := List.zipWith (· + ·) xs ys

/-- Source line 56: `avg_total = sum(total_per_set)/len(total_per_set)` Rational division by zero yields `0` here; `predict` turns the
`len(total_per_set) == 0` case into an error before using this value. -/
def avg_total (xs ys : List ℚ) : ℚ :=
  (total_per_set xs ys).sum / ((total_per_set xs ys).length : ℚ)

/-- Source lines 59-60: `adjusted_total = avg_total + 0.3` -/
def adjusted_total (xs ys : List ℚ) : ℚ := avg_total xs ys + 3/10

/-- The per-set win-percentage list for player A (bot.py line 63):
`[a/(a+b)*100 if (a+b)>0 else 50 for a,b in zip(player_a_sets, player_b_sets)]`.
(In the source this list is called `player_a_win_pct`; that name is kept for
the result field holding the rounded normalized percentage.) -/
def perSetPctA (xs ys : List ℚ) : List ℚ :=
  List.zipWith (fun a b => if a + b > 0 then a / (a + b) * 100 else 50) xs ys

/-- The per-set win-percentage list for player B (bot.py line 64):
`[100 - pct for pct in player_a_win_pct]`. -/
def perSetPctB (ps : List ℚ) : List ℚ := ps.map (fun p => 100 - p)

/-- Source line 67: `total_pct_a = sum(player_a_win_pct)` -/
def total_pct_a (xs ys : List ℚ) : ℚ := (perSetPctA xs ys).sum

/-- Source line 68: `total_pct_b = sum(player_b_win_pct)` -/
def total_pct_b (xs ys : List ℚ) : ℚ := (perSetPctB (perSetPctA xs ys)).sum

/-- Source line 69: `player_a_norm = total_pct_a / (total_pct_a + total_pct_b) * 100`, before the clay boost. -/
def player_a_norm (xs ys : List ℚ) : ℚ :=
  total_pct_a xs ys / (total_pct_a xs ys + total_pct_b xs ys) * 100

/-- Source line 70: `player_b_norm = 100 - player_a_norm` -/
def player_b_norm (xs ys : List ℚ) : ℚ := 100 - player_a_norm xs ys

/-- The result dictionary built by `predict` (bot.py lines 80-86). -/
structure PredictionResult where
  total_per_set : List ℚ
  adjusted_total_games : ℚ
  player_a_win_pct : ℚ
  player_b_win_pct : ℚ
  over_under_prediction : String
deriving DecidableEq, Repr

/-- The function `predict(data)` (bot.py lines 54-87) on a record whose four used fields
are already a numeric list, a numeric list, a number and a string.  `none`
models an uncaught runtime error: `ZeroDivisionError` at line 56 when
`total_per_set` is empty, and at line 69 when the normalization divisor
`total_pct_a + total_pct_b` is zero. -/
def predict (xs ys : List ℚ) (over_under : ℚ) (surface : String) :
    Option PredictionResult :=
  if (total_per_set xs ys).length = 0 then none
  else if total_pct_a xs ys + total_pct_b xs ys = 0 then none
  else
    let pair :=
      if pyLower surface = "clay" then
        (player_a_norm xs ys + 1, player_b_norm xs ys - 1)
      else (player_a_norm xs ys, player_b_norm xs ys)
    some { total_per_set := total_per_set xs ys,
           adjusted_total_games := pyRound2 (adjusted_total xs ys),
           player_a_win_pct := pyRound2 pair.1,
           player_b_win_pct := pyRound2 pair.2,
           over_under_prediction :=
             if adjusted_total xs ys > over_under then "Over" else "Under" }

/-! ### The Python-level data model for the Validator -/

/-- A Python value as far as `validate_input` and the record fields are
concerned: a number (`int` or `float`), a string, or a list. -/
inductive PyVal where
  | num (q : ℚ)
  | str (s : String)
  | list (elems : List PyVal)

/-- Python `data[key]` and `key in data`: association-list lookup. -/
def pyGet (d : List (String × PyVal)) (key : String) : Option PyVal :=
  match d with
  | [] => none
  | (k, v) :: rest => if k = key then some v else pyGet rest key

/-- Source line 37: `required_keys`. -/
def requiredKeys : List String :=
  ["player_a", "player_b", "player_a_sets", "player_b_sets", "over_under",
   "surface"]

/-- The first required key, in `required_keys` order, missing from the
record: the key whose absence the loop at bot.py lines 38-40 reports. -/
def firstMissing (d : List (String × PyVal)) : Option String :=
  requiredKeys.find? (fun k => (pyGet d k).isNone)

/-- Python `isinstance(x, (int, float))`. -/
def isNum : PyVal → Bool
  | .num _ => true
  | _ => false

/-- Iterating a Python value: a list yields its elements, a string yields
its characters (as one-character strings), and a number is not iterable
(iterating it raises `TypeError`), which `none` models. -/
def iterElems : PyVal → Option (List PyVal)
  | .list l => some l
  | .str s => some (s.data.map (fun c => .str (String.mk [c])))
  | .num _ => none

/-- The body of `validate_input` (bot.py lines 37-49), i.e. the `try`
block.  `Except.error` models an exception escaping the body (here: a
non-iterable sets field), the string standing for Python's `str(e)`. -/
def validateBody (d : List (String × PyVal)) : Except String (Bool × String) :=
  match firstMissing d with
  | some k => Except.ok (false, "Missing field: " ++ k)
  | none =>
    match iterElems ((pyGet d "player_a_sets").getD (PyVal.num 0)) with
    | none => Except.error "argument is not iterable"
    | some elemsA =>
      if !elemsA.all isNum then
        Except.ok (false, "player_a_sets must be numbers")
      else
        match iterElems ((pyGet d "player_b_sets").getD (PyVal.num 0)) with
        | none => Except.error "argument is not iterable"
        | some elemsB =>
          if !elemsB.all isNum then
            Except.ok (false, "player_b_sets must be numbers")
          else if !isNum ((pyGet d "over_under").getD (PyVal.str "")) then
            Except.ok (false, "over_under must be a number")
          else Except.ok (true, "Valid data")

/-- The function `validate_input(data)` (bot.py lines 35-51): the
`try`/`except` wrapper returns the body's verdict and turns any escaping
exception `e` into `(False, str(e))`. -/
def validate_input (d : List (String × PyVal)) : Bool × String :=
  match validateBody d with
  | Except.ok r => r
  | Except.error e => (false, e)

/-- All elements of a list of Python values as numbers, if they all are. -/
def numElems : List PyVal → Option (List ℚ)
  | [] => some []
  | .num q :: rest => (numElems rest).map (fun l => q :: l)
  | _ => none

/-- Extraction of a numeric-list field the way `predict` consumes it; any
other shape makes the real `predict` raise eventually, which `none` models. -/
def asNumList : PyVal → Option (List ℚ)
  | .list l => numElems l
  | _ => none

/-- The function `predict(data)` on a raw record: extract the four fields it
reads, then run `predict`; a missing or mistyped field is an error. -/
def predictD (d : List (String × PyVal)) : Option PredictionResult := do
  let xs ← (pyGet d "player_a_sets").bind asNumList
  let ys ← (pyGet d "player_b_sets").bind asNumList
  let ou ← match pyGet d "over_under" with
           | some (PyVal.num q) => some q
           | _ => none
  let s ← match pyGet d "surface" with
          | some (PyVal.str s) => some s
          | _ => none
  predict xs ys ou s

/-! ### Rounding lemmas -/

theorem pyRoundInt_add_even (q : ℚ) (n : ℤ) (hn : n % 2 = 0) :
    pyRoundInt (q + n) = pyRoundInt q + n := by
  unfold pyRoundInt
  rw [Int.fract_add_int, Int.floor_add_int]
  split_ifs <;> omega

theorem pyRoundInt_neg (q : ℚ) : pyRoundInt (-q) = -pyRoundInt q := by
  by_cases h0 : Int.fract q = 0
  · have hq : q = (⌊q⌋ : ℚ) := by
      have := Int.self_sub_floor q
      rw [h0] at this
      linarith
    rw [hq, ← Int.cast_neg]
    unfold pyRoundInt
    rw [Int.fract_intCast, Int.fract_intCast, Int.floor_intCast, Int.floor_intCast]
    norm_num
  · have h1 : Int.fract (-q) = 1 - Int.fract q := Int.fract_neg h0
    have hfr0 : 0 ≤ Int.fract q := Int.fract_nonneg q
    have hfr1 : Int.fract q < 1 := Int.fract_lt_one q
    have hpos : 0 < Int.fract q := lt_of_le_of_ne hfr0 (Ne.symm h0)
    have hsum : (⌊q⌋ : ℚ) + Int.fract q = q := Int.floor_add_fract q
    have hfl : ⌊-q⌋ = -⌊q⌋ - 1 := by
      rw [Int.floor_eq_iff]
      constructor
      · push_cast
        linarith
      · push_cast
        linarith
    unfold pyRoundInt
    rw [h1, hfl]
    split_ifs <;> first | omega | linarith

theorem pyRound2_add_one (x : ℚ) : pyRound2 (x + 1) = pyRound2 x + 1 := by
  unfold pyRound2
  have h : (x + 1) * 100 = x * 100 + ((100 : ℤ) : ℚ) := by push_cast; ring
  rw [h, pyRoundInt_add_even _ 100 (by decide)]
  push_cast
  ring

theorem pyRound2_sub_one (x : ℚ) : pyRound2 (x - 1) = pyRound2 x - 1 := by
  unfold pyRound2
  have h : (x - 1) * 100 = x * 100 + ((-100 : ℤ) : ℚ) := by push_cast; ring
  rw [h, pyRoundInt_add_even _ (-100) (by decide)]
  push_cast
  ring

theorem pyRound2_complement (x : ℚ) :
    pyRound2 x + pyRound2 (100 - x) = 100 := by
  unfold pyRound2
  have h : (100 - x) * 100 = -(x * 100) + ((10000 : ℤ) : ℚ) := by push_cast; ring
  rw [h, pyRoundInt_add_even _ 10000 (by decide), pyRoundInt_neg]
  push_cast
  ring

/-! ### Structural lemmas about `predict` -/

theorem length_total_per_set (xs ys : List ℚ) :
    (total_per_set xs ys).length = min xs.length ys.length := by
  simp [total_per_set]

theorem length_perSetPctA (xs ys : List ℚ) :
    (perSetPctA xs ys).length = (total_per_set xs ys).length := by
  simp [perSetPctA, total_per_set]

theorem perSetPctB_sum (ps : List ℚ) :
    (perSetPctB ps).sum = 100 * ps.length - ps.sum := by
  induction ps with
  | nil => simp [perSetPctB]
  | cons p t ih =>
    simp only [perSetPctB, List.map_cons, List.sum_cons, List.length_cons] at ih ⊢
    push_cast
    linarith

/-- The normalization divisor is `100 * (number of zipped sets)`. -/
theorem divisor_eq (xs ys : List ℚ) :
    total_pct_a xs ys + total_pct_b xs ys =
      100 * (total_per_set xs ys).length := by
  unfold total_pct_a total_pct_b
  rw [perSetPctB_sum, length_perSetPctA]
  ring

/-- Master evaluation lemma: on any input with at least one zipped set,
`predict` succeeds and its fields are the named subexpressions. -/
theorem predict_eq (xs ys : List ℚ) (ou : ℚ) (s : String)
    (h : (total_per_set xs ys).length ≠ 0) :
    predict xs ys ou s =
      some { total_per_set := total_per_set xs ys,
             adjusted_total_games := pyRound2 (adjusted_total xs ys),
             player_a_win_pct :=
               pyRound2 (if pyLower s = "clay" then player_a_norm xs ys + 1
                         else player_a_norm xs ys),
             player_b_win_pct :=
               pyRound2 (if pyLower s = "clay" then player_b_norm xs ys - 1
                         else player_b_norm xs ys),
             over_under_prediction :=
               if adjusted_total xs ys > ou then "Over" else "Under" } := by
  have hd : total_pct_a xs ys + total_pct_b xs ys ≠ 0 := by
    rw [divisor_eq]
    simpa using h
  unfold predict
  rw [if_neg h, if_neg hd]
  split_ifs <;> rfl

/-- The function `predict` errors exactly when the zipped set list is empty. -/
theorem predict_none_iff (xs ys : List ℚ) (ou : ℚ) (s : String) :
    predict xs ys ou s = none ↔ (total_per_set xs ys).length = 0 := by
  constructor
  · intro hp
    by_contra h
    rw [predict_eq xs ys ou s h] at hp
    cases hp
  · intro h
    unfold predict
    rw [if_pos h]

theorem predict_some_length {xs ys : List ℚ} {ou : ℚ} {s : String}
    {r : PredictionResult} (hp : predict xs ys ou s = some r) :
    (total_per_set xs ys).length ≠ 0 := by
  intro h
  rw [(predict_none_iff xs ys ou s).mpr h] at hp
  cases hp

/-! ### Claim theorems about `predict` -/

/-- C1: for equal-length numeric inputs, the `total_per_set` returned by
`predict` has the length of `player_a_sets` and its i-th element is
`player_a_sets[i] + player_b_sets[i]`. -/
theorem C1_total_per_set_elementwise (xs ys : List ℚ) (h : xs.length = ys.length) :
    (∀ ou s r, predict xs ys ou s = some r → r.total_per_set = total_per_set xs ys) ∧
    (total_per_set xs ys).length = xs.length ∧
    ∀ (i : ℕ) (hi : i < (total_per_set xs ys).length) (hx : i < xs.length)
      (hy : i < ys.length),
      (total_per_set xs ys).get ⟨i, hi⟩ = xs.get ⟨i, hx⟩ + ys.get ⟨i, hy⟩ := by
  refine ⟨?_, ?_, ?_⟩
  · intro ou s r hp
    have hh := predict_some_length hp
    rw [predict_eq xs ys ou s hh] at hp
    injection hp with e
    rw [← e]
  · rw [length_total_per_set]
    omega
  · intro i hi hx hy
    simp [total_per_set, List.get_eq_getElem, List.getElem_zipWith]

/-- C2: for every successful run of `predict`, the two returned win
percentages sum to exactly 100 on a non-clay surface, and to 100 ± 2 (in
fact exactly 100, since the +1/−1 shifts cancel) on clay. -/
theorem C2_win_pct_sum (xs ys : List ℚ) (ou : ℚ) (s : String)
    (r : PredictionResult) (hp : predict xs ys ou s = some r) :
    (pyLower s ≠ "clay" → r.player_a_win_pct + r.player_b_win_pct = 100) ∧
    (pyLower s = "clay" →
      100 - 2 ≤ r.player_a_win_pct + r.player_b_win_pct ∧
      r.player_a_win_pct + r.player_b_win_pct ≤ 100 + 2) := by
  have hh := predict_some_length hp
  rw [predict_eq xs ys ou s hh] at hp
  injection hp with e
  subst e
  constructor
  · intro hc
    simp only [if_neg hc]
    have hb : player_b_norm xs ys = 100 - player_a_norm xs ys := rfl
    rw [hb]
    exact pyRound2_complement _
  · intro hc
    simp only [if_pos hc]
    have hb : player_b_norm xs ys - 1 = 100 - (player_a_norm xs ys + 1) := by
      unfold player_b_norm
      ring
    rw [hb]
    have h100 := pyRound2_complement (player_a_norm xs ys + 1)
    constructor <;> linarith

/-- C3 (amended): `predict` errors exactly when one of the two sequences is
empty; mismatched non-empty lengths do not error but silently truncate to
the shorter length (Python `zip` semantics). -/
theorem C3_predict_error_iff (xs ys : List ℚ) (ou : ℚ) (s : String) :
    (predict xs ys ou s = none ↔ xs = [] ∨ ys = []) ∧
    (∀ r, predict xs ys ou s = some r →
      r.total_per_set.length = min xs.length ys.length) := by
  constructor
  · rw [predict_none_iff, length_total_per_set]
    constructor
    · intro h
      rcases Nat.min_eq_zero_iff.mp h with h | h
      · exact Or.inl (List.length_eq_zero.mp h)
      · exact Or.inr (List.length_eq_zero.mp h)
    · intro h
      rcases h with h | h <;> subst h <;> simp
  · intro r hp
    have hh := predict_some_length hp
    rw [predict_eq xs ys ou s hh] at hp
    injection hp with e
    rw [← e]
    exact length_total_per_set xs ys

/-- C3 counterexample: the claim says `predict` raises on mismatched-length
inputs, but on `player_a_sets = [6]`, `player_b_sets = [4, 7]` (mismatched,
non-empty) `predict` succeeds: `zip` silently truncates. -/
theorem C3_counterexample : predict [(6 : ℚ)] [4, 7] 22 "hard" ≠ none := by
  rw [predict_eq _ _ _ _ (by decide)]
  simp

/-- C5: the over/under call is "Over" exactly when the unrounded adjusted
total strictly exceeds the line, "Under" otherwise; equality gives "Under". -/
theorem C5_over_under_call (xs ys : List ℚ) (ou : ℚ) (s : String)
    (r : PredictionResult) (hp : predict xs ys ou s = some r) :
    (r.over_under_prediction = "Over" ↔ adjusted_total xs ys > ou) ∧
    (r.over_under_prediction = "Under" ↔ ¬adjusted_total xs ys > ou) ∧
    (adjusted_total xs ys = ou → r.over_under_prediction = "Under") := by
  have hh := predict_some_length hp
  rw [predict_eq xs ys ou s hh] at hp
  injection hp with e
  subst e
  simp only
  split_ifs with hgt
  · exact ⟨⟨fun _ => hgt, fun _ => rfl⟩,
      ⟨fun h => absurd h (by decide), fun h => absurd hgt h⟩,
      fun he => absurd (he ▸ hgt) (lt_irrefl ou)⟩
  · exact ⟨⟨fun h => absurd h (by decide), fun h => absurd h hgt⟩,
      ⟨fun _ => hgt, fun _ => rfl⟩, fun _ => rfl⟩

/-- C7: a 0-0 set gets the 50/50 tie-break default instead of a division
error, and player B's per-set percentage is the complement of player A's. -/
theorem C7_degenerate_set (xs ys : List ℚ) (i : ℕ)
    (hi : i < (perSetPctA xs ys).length) (hx : i < xs.length)
    (hy : i < ys.length)
    (ha : xs.get ⟨i, hx⟩ = 0) (hb : ys.get ⟨i, hy⟩ = 0) :
    (perSetPctA xs ys).get ⟨i, hi⟩ = 50 ∧
    ∀ (j : ℕ) (hja : j < (perSetPctA xs ys).length)
      (hjb : j < (perSetPctB (perSetPctA xs ys)).length),
      (perSetPctB (perSetPctA xs ys)).get ⟨j, hjb⟩ =
        100 - (perSetPctA xs ys).get ⟨j, hja⟩ := by
  constructor
  · simp only [perSetPctA, List.get_eq_getElem, List.getElem_zipWith] at *
    rw [ha, hb]
    norm_num
  · intro j hja hjb
    simp [perSetPctB, List.get_eq_getElem, List.getElem_map]

/-- C8: for non-empty equal-length inputs with non-negative entries the
normalization divisor `total_pct_a + total_pct_b` is strictly positive
(it equals 100 per zipped set), so `predict` never divides by zero there. -/
theorem C8_divisor_pos (xs ys : List ℚ) (hne : xs ≠ [])
    (hlen : xs.length = ys.length)
    (_hxnn : ∀ x ∈ xs, 0 ≤ x) (_hynn : ∀ y ∈ ys, 0 ≤ y) :
    0 < total_pct_a xs ys + total_pct_b xs ys ∧
    ∀ ou s, (predict xs ys ou s).isSome = true := by
  have hxlen : xs.length ≠ 0 := fun h => hne (List.length_eq_zero.mp h)
  have hlen0 : (total_per_set xs ys).length ≠ 0 := by
    rw [length_total_per_set]
    omega
  constructor
  · rw [divisor_eq]
    have hpos : 0 < (total_per_set xs ys).length := Nat.pos_of_ne_zero hlen0
    have : (0 : ℚ) < ((total_per_set xs ys).length : ℚ) := by exact_mod_cast hpos
    linarith
  · intro ou s
    rw [predict_eq xs ys ou s hlen0]
    rfl

/-- C4: a clay run yields exactly +1 on player A's percentage and −1 on
player B's relative to a non-clay run on the same record, with
`total_per_set`, `adjusted_total_games` and `over_under_prediction`
unchanged; the shift is applied after normalization (and before rounding,
which preserves it exactly). -/
theorem C4_clay_shift (xs ys : List ℚ) (ou : ℚ) (s1 s2 : String)
    (r1 r2 : PredictionResult)
    (hs1 : pyLower s1 = "clay") (hs2 : pyLower s2 ≠ "clay")
    (hp1 : predict xs ys ou s1 = some r1) (hp2 : predict xs ys ou s2 = some r2) :
    r1.player_a_win_pct = r2.player_a_win_pct + 1 ∧
    r1.player_b_win_pct = r2.player_b_win_pct - 1 ∧
    r1.total_per_set = r2.total_per_set ∧
    r1.adjusted_total_games = r2.adjusted_total_games ∧
    r1.over_under_prediction = r2.over_under_prediction := by
  have h1 := predict_some_length hp1
  have h2 := predict_some_length hp2
  rw [predict_eq xs ys ou s1 h1] at hp1
  rw [predict_eq xs ys ou s2 h2] at hp2
  injection hp1 with e1
  injection hp2 with e2
  subst e1
  subst e2
  simp only [if_pos hs1, if_neg hs2]
  exact ⟨pyRound2_add_one _, pyRound2_sub_one _, trivial, trivial, trivial⟩

/-! ### Concrete runs (the spec's end-to-end example, sets 6-4 and 6-7) -/

/-- Concrete run of `predict` on a hard surface. -/
theorem predict_hard_eval :
    predict [(6 : ℚ), 6] [4, 7] 22 "hard" =
      some { total_per_set := [10, 13],
             adjusted_total_games := 59/5,
             player_a_win_pct := 1327/25,
             player_b_win_pct := 1173/25,
             over_under_prediction := "Under" } := by
  rw [predict_eq _ _ _ _ (by decide)]
  rw [if_neg (by decide : ¬pyLower "hard" = "clay"),
      if_neg (by decide : ¬pyLower "hard" = "clay")]
  norm_num [total_per_set, perSetPctA, perSetPctB, total_pct_a, total_pct_b,
    player_a_norm, player_b_norm, adjusted_total, avg_total, pyRound2,
    pyRoundInt, Int.fract]

/-- Concrete run of `predict` on clay: win percentages shift by exactly ±1. -/
theorem predict_clay_eval :
    predict [(6 : ℚ), 6] [4, 7] 22 "clay" =
      some { total_per_set := [10, 13],
             adjusted_total_games := 59/5,
             player_a_win_pct := 1352/25,
             player_b_win_pct := 1148/25,
             over_under_prediction := "Under" } := by
  rw [predict_eq _ _ _ _ (by decide)]
  rw [if_pos (by decide : pyLower "clay" = "clay"),
      if_pos (by decide : pyLower "clay" = "clay")]
  norm_num [total_per_set, perSetPctA, perSetPctB, total_pct_a, total_pct_b,
    player_a_norm, player_b_norm, adjusted_total, avg_total, pyRound2,
    pyRoundInt, Int.fract]

/-! ### Witnesses -/

/-- Witness for C1 at the concrete input `[6, 6]`, `[4, 7]`. -/
theorem C1_witness :
    (total_per_set [(6 : ℚ), 6] [4, 7]).length = 2 ∧
    (total_per_set [(6 : ℚ), 6] [4, 7]).get ⟨0, by decide⟩ = 10 := by
  have h := C1_total_per_set_elementwise [(6 : ℚ), 6] [4, 7] rfl
  refine ⟨by rw [h.2.1]; rfl, ?_⟩
  have he := h.2.2 0 (by decide) (by decide) (by decide)
  rw [he]
  show (6 : ℚ) + 4 = 10
  norm_num

/-- Witness for C2 at the concrete hard-surface run. -/
theorem C2_witness :
    pyLower "hard" ≠ "clay" ∧ (1327/25 : ℚ) + 1173/25 = 100 := by
  have h := (C2_win_pct_sum [(6 : ℚ), 6] [4, 7] 22 "hard" _ predict_hard_eval).1
      (by decide)
  exact ⟨by decide, by simpa using h⟩

/-- Witness for the amended C3: an empty `player_a_sets` makes `predict` error. -/
theorem C3_witness : predict ([] : List ℚ) [4] 22 "hard" = none :=
  (C3_predict_error_iff [] [4] 22 "hard").1.mpr (Or.inl rfl)

/-- Witness for C4: on the concrete input the clay run is exactly +1/−1
relative to the hard run. -/
theorem C4_witness :
    pyLower "clay" = "clay" ∧ pyLower "hard" ≠ "clay" ∧
    (1352/25 : ℚ) = 1327/25 + 1 ∧ (1148/25 : ℚ) = 1173/25 - 1 := by
  have h := C4_clay_shift [(6 : ℚ), 6] [4, 7] 22 "clay" "hard" _ _
      (by decide) (by decide) predict_clay_eval predict_hard_eval
  exact ⟨by decide, by decide, by simpa using h.1, by simpa using h.2.1⟩

/-- Witness for C5: on the concrete run `11.8 ≤ 22` and the call is "Under". -/
theorem C5_witness :
    ¬adjusted_total [(6 : ℚ), 6] [4, 7] > 22 ∧
    ({ total_per_set := [10, 13], adjusted_total_games := 59/5,
       player_a_win_pct := 1327/25, player_b_win_pct := 1173/25,
       over_under_prediction := "Under" } :
        PredictionResult).over_under_prediction = "Under" := by
  have hle : ¬adjusted_total [(6 : ℚ), 6] [4, 7] > 22 := by
    norm_num [adjusted_total, avg_total, total_per_set]
  have h := (C5_over_under_call [(6 : ℚ), 6] [4, 7] 22 "hard" _
      predict_hard_eval).2.1.mpr hle
  exact ⟨hle, h⟩

/-- Witness for C7 at the all-scoreless input `[0]`, `[0]`. -/
theorem C7_witness :
    (perSetPctA [(0 : ℚ)] [0]).get ⟨0, by decide⟩ = 50 ∧
    (perSetPctB (perSetPctA [(0 : ℚ)] [0])).get ⟨0, by decide⟩ = 50 := by
  have h := C7_degenerate_set [(0 : ℚ)] [0] 0 (by decide) (by decide) (by decide)
      rfl rfl
  refine ⟨h.1, ?_⟩
  have hb := h.2 0 (by decide) (by decide)
  rw [hb, h.1]
  norm_num

/-- Witness for C8 at the concrete input `[6, 6]`, `[4, 7]`. -/
theorem C8_witness :
    0 < total_pct_a [(6 : ℚ), 6] [4, 7] + total_pct_b [(6 : ℚ), 6] [4, 7] ∧
    (predict [(6 : ℚ), 6] [4, 7] 22 "hard").isSome = true := by
  have h := C8_divisor_pos [(6 : ℚ), 6] [4, 7] (by decide) rfl
      (by norm_num) (by norm_num)
  exact ⟨h.1, h.2 22 "hard"⟩

/-! ### Claim theorems about `validate_input` -/

/-- C6: `validate_input` checks in order, short-circuiting on the first
failure: presence of the six required keys (naming the first missing one),
then numeric `player_a_sets`, then numeric `player_b_sets`, then numeric
`over_under`; if all pass it returns ok with an informational message. -/
theorem C6_validate_order (d : List (String × PyVal)) :
    (∀ k, firstMissing d = some k →
      validate_input d = (false, "Missing field: " ++ k)) ∧
    (∀ xs, firstMissing d = none →
      pyGet d "player_a_sets" = some (PyVal.list xs) → xs.all isNum = false →
      validate_input d = (false, "player_a_sets must be numbers")) ∧
    (∀ xs ys, firstMissing d = none →
      pyGet d "player_a_sets" = some (PyVal.list xs) → xs.all isNum = true →
      pyGet d "player_b_sets" = some (PyVal.list ys) → ys.all isNum = false →
      validate_input d = (false, "player_b_sets must be numbers")) ∧
    (∀ xs ys v, firstMissing d = none →
      pyGet d "player_a_sets" = some (PyVal.list xs) → xs.all isNum = true →
      pyGet d "player_b_sets" = some (PyVal.list ys) → ys.all isNum = true →
      pyGet d "over_under" = some v → isNum v = false →
      validate_input d = (false, "over_under must be a number")) ∧
    (∀ xs ys v, firstMissing d = none →
      pyGet d "player_a_sets" = some (PyVal.list xs) → xs.all isNum = true →
      pyGet d "player_b_sets" = some (PyVal.list ys) → ys.all isNum = true →
      pyGet d "over_under" = some v → isNum v = true →
      validate_input d = (true, "Valid data")) := by
  refine ⟨?_, ?_, ?_, ?_, ?_⟩
  · intro k hk
    simp [validate_input, validateBody, hk]
  · intro xs h0 ha hnum
    simp [validate_input, validateBody, h0, ha, hnum, iterElems]
  · intro xs ys h0 ha hanum hb hbnum
    simp [validate_input, validateBody, h0, ha, hanum, hb, hbnum, iterElems]
  · intro xs ys v h0 ha hanum hb hbnum ho honum
    simp [validate_input, validateBody, h0, ha, hanum, hb, hbnum, ho, honum,
      iterElems]
  · intro xs ys v h0 ha hanum hb hbnum ho honum
    simp [validate_input, validateBody, h0, ha, hanum, hb, hbnum, ho, honum,
      iterElems]

/-- C9: `validate_input` never propagates an exception: an error escaping
the body is caught and returned as a failure verdict `(false, message)`,
and an ordinary verdict is returned unchanged.  (As a pure function of its
argument, the model also has no side effects.) -/
theorem C9_catch_all (d : List (String × PyVal)) :
    (∀ e, validateBody d = Except.error e → validate_input d = (false, e)) ∧
    (∀ r, validateBody d = Except.ok r → validate_input d = r) := by
  constructor
  · intro e he
    unfold validate_input
    rw [he]
  · intro r hr
    unfold validate_input
    rw [hr]

/-- C10: a record with all six keys, both sets fields empty lists and a
numeric `over_under` passes validation, yet `predict` on that same record
errors (division by zero over zero sets): emptiness is not rejected. -/
theorem C10_empty_passes_validation (d : List (String × PyVal)) (q : ℚ)
    (h0 : firstMissing d = none)
    (ha : pyGet d "player_a_sets" = some (PyVal.list []))
    (hb : pyGet d "player_b_sets" = some (PyVal.list []))
    (ho : pyGet d "over_under" = some (PyVal.num q)) :
    validate_input d = (true, "Valid data") ∧ predictD d = none := by
  constructor
  · simp [validate_input, validateBody, h0, ha, hb, ho, iterElems, isNum]
  · have hp : ∀ s, predict [] [] q s = none := fun s =>
      (predict_none_iff [] [] q s).mpr rfl
    cases hs : pyGet d "surface" with
    | none => simp [predictD, ha, hb, ho, hs, asNumList, numElems]
    | some v =>
      cases v with
      | num q2 => simp [predictD, ha, hb, ho, hs, asNumList, numElems]
      | str s => simp [predictD, ha, hb, ho, hs, asNumList, numElems, hp s]
      | list l => simp [predictD, ha, hb, ho, hs, asNumList, numElems]

/-- Witness for C6: each branch of the ordered check cascade fires on a
concrete record, including short-circuits past later-failing fields. -/
theorem C6_witness :
    validate_input [("player_a", PyVal.str "Nadal")] =
      (false, "Missing field: player_b") ∧
    validate_input
      [("player_a", PyVal.str "Nadal"), ("player_b", PyVal.str "Federer"),
       ("player_a_sets", PyVal.list [PyVal.num 6, PyVal.str "x"]),
       ("player_b_sets", PyVal.num 0), ("over_under", PyVal.str "no"),
       ("surface", PyVal.str "hard")] =
      (false, "player_a_sets must be numbers") ∧
    validate_input
      [("player_a", PyVal.str "Nadal"), ("player_b", PyVal.str "Federer"),
       ("player_a_sets", PyVal.list [PyVal.num 6]),
       ("player_b_sets", PyVal.list [PyVal.str "x"]),
       ("over_under", PyVal.str "no"), ("surface", PyVal.str "hard")] =
      (false, "player_b_sets must be numbers") ∧
    validate_input
      [("player_a", PyVal.str "Nadal"), ("player_b", PyVal.str "Federer"),
       ("player_a_sets", PyVal.list [PyVal.num 6]),
       ("player_b_sets", PyVal.list [PyVal.num 4]),
       ("over_under", PyVal.str "no"), ("surface", PyVal.str "hard")] =
      (false, "over_under must be a number") ∧
    validate_input
      [("player_a", PyVal.str "Nadal"), ("player_b", PyVal.str "Federer"),
       ("player_a_sets", PyVal.list [PyVal.num 6]),
       ("player_b_sets", PyVal.list [PyVal.num 4]),
       ("over_under", PyVal.num 22), ("surface", PyVal.str "hard")] =
      (true, "Valid data") := by
  refine ⟨(C6_validate_order _).1 "player_b" rfl,
    (C6_validate_order _).2.1 [PyVal.num 6, PyVal.str "x"] rfl rfl rfl,
    (C6_validate_order _).2.2.1 [PyVal.num 6] [PyVal.str "x"]
      rfl rfl rfl rfl rfl,
    (C6_validate_order _).2.2.2.1 [PyVal.num 6] [PyVal.num 4] (PyVal.str "no")
      rfl rfl rfl rfl rfl rfl rfl,
    (C6_validate_order _).2.2.2.2 [PyVal.num 6] [PyVal.num 4] (PyVal.num 22)
      rfl rfl rfl rfl rfl rfl rfl⟩

/-- Witness for C9: a record whose `player_a_sets` is a number (so iterating
it raises) yields a caught error and a failure verdict, not an exception. -/
theorem C9_witness :
    validateBody
      [("player_a", PyVal.str "Nadal"), ("player_b", PyVal.str "Federer"),
       ("player_a_sets", PyVal.num 5), ("player_b_sets", PyVal.list []),
       ("over_under", PyVal.num 22), ("surface", PyVal.str "hard")] =
      Except.error "argument is not iterable" ∧
    validate_input
      [("player_a", PyVal.str "Nadal"), ("player_b", PyVal.str "Federer"),
       ("player_a_sets", PyVal.num 5), ("player_b_sets", PyVal.list []),
       ("over_under", PyVal.num 22), ("surface", PyVal.str "hard")] =
      (false, "argument is not iterable") :=
  ⟨rfl, (C9_catch_all _).1 "argument is not iterable" rfl⟩

/-- Witness for C10: a six-key record with empty sets lists passes
validation while `predict` on it errors. -/
theorem C10_witness :
    validate_input
      [("player_a", PyVal.str "Nadal"), ("player_b", PyVal.str "Federer"),
       ("player_a_sets", PyVal.list []), ("player_b_sets", PyVal.list []),
       ("over_under", PyVal.num 22), ("surface", PyVal.str "hard")] =
      (true, "Valid data") ∧
    predictD
      [("player_a", PyVal.str "Nadal"), ("player_b", PyVal.str "Federer"),
       ("player_a_sets", PyVal.list []), ("player_b_sets", PyVal.list []),
       ("over_under", PyVal.num 22), ("surface", PyVal.str "hard")] =
      none :=
  C10_empty_passes_validation _ 22 rfl rfl rfl rfl
